import Mathlib

/-!
Verification of the two docx-template generator scripts of this repository
(`scripts/createLoanTemplate.py` and `scripts/createTestTemplate.py`).

The scripts build a Word document as an ordered list of block elements
(paragraphs, headings, tables), then create the output directory with
`os.makedirs(..., exist_ok=True)` and save the document to a fixed relative
path, printing a confirmation.  The embedding below models:

  * the document data (runs with bold/size/color styling, paragraphs with
    alignment, two-column tables with a named style) — `Block`;
  * each script's document, built block by block in source order —
    `CreateLoanTemplate.doc` / `CreateTestTemplate.doc`;
  * `datetime.now().strftime("%B %d, %Y")` — `strftimeBdY`, over the month
    index, day and year read from the clock;
  * the placeholder scanner for double-brace tokens, used to state the
    token-set properties — `tokensIn`;
  * a small filesystem model (existing directories and files, plus a
    writability predicate) with `makedirs` / `save`, and each script's
    run (`CreateLoanTemplate.run` / `CreateTestTemplate.run`) returning the
    final filesystem, the saved document, the stdout lines and the first
    uncaught error.

Literal braces in strings are written with the escapes `\x7b` / `\x7d`.
-/

namespace EzBuildr

/-- Paragraph alignment (`WD_PARAGRAPH_ALIGNMENT`); python-docx's default is
left alignment. -/
inductive Align where
  | left
  | center
  | right
deriving DecidableEq

/-- An RGB colour (`RGBColor(r, g, b)`). -/
structure Rgb where
  r : Nat
  g : Nat
  b : Nat
deriving DecidableEq

/-- A text run with the style attributes the scripts set: `run.bold`,
`run.font.size` (in points) and `run.font.color.rgb`; `none` means the
attribute was left at the library default. -/
structure TRun where
  text : String
  bold : Option Bool := none
  size : Option Nat := none
  color : Option Rgb := none
deriving DecidableEq

/-- A run with only text, as produced by `add_paragraph(text)` or by
assigning `cell.text`. -/
def mkRun (t : String) : TRun :=
  { text := t }

/-- A paragraph: its runs in order and its alignment. -/
structure Para where
  runs : List TRun := []
  align : Align := .left
deriving DecidableEq

/-- A table cell: the runs of its (single) paragraph. -/
structure Cell where
  runs : List TRun := []
deriving DecidableEq

/-- A table: its grid of cells and its named visual style
(`table.style = ...`). -/
structure Table where
  rows : List (List Cell)
  style : String
deriving DecidableEq

/-- A block element of the document body: a paragraph, a heading
(`add_heading(text, level)`, with its alignment), or a table. -/
inductive Block where
  | para (p : Para)
  | heading (text : String) (level : Nat) (align : Align)
  | table (t : Table)
deriving DecidableEq

/-- Replace the element at index `i` (out-of-range indices leave the list
unchanged, which never happens at the fixed literal indices the scripts
use). -/
def listModify {α : Type} : List α → Nat → (α → α) → List α
  | [], _, _ => []
  | a :: as, 0, f => f a :: as
  | a :: as, n + 1, f => a :: listModify as n f

/-- `doc.add_table(rows=r, cols=c)` followed by `table.style = s`: an `r × c`
grid of empty cells. -/
def addTable (r c : Nat) (s : String) : Table :=
  { rows := List.replicate r (List.replicate c {}), style := s }

/-- `table.rows[r].cells[c].text = s`: the cell's content becomes the single
plain run `s`. -/
def Table.setText (t : Table) (r c : Nat) (s : String) : Table :=
  { t with rows := listModify t.rows r (fun row => listModify row c (fun _ => ⟨[mkRun s]⟩)) }

/-- `table.rows[r].cells[c].paragraphs[0].add_run(...)` with subsequent style
assignments: the cell's content becomes the given styled run. -/
def Table.setRun (t : Table) (r c : Nat) (u : TRun) : Table :=
  { t with rows := listModify t.rows r (fun row => listModify row c (fun _ => ⟨[u]⟩)) }

/-- The texts of a block, in order: each run's text for a paragraph, the
heading text, and each cell run's text row by row for a table. -/
def blockTexts : Block → List String
  | .para p => p.runs.map (·.text)
  | .heading t _ _ => [t]
  | .table t => (t.rows.flatten.map (fun cl => cl.runs.map (·.text))).flatten

/-- All texts of a document, block by block. -/
def docTexts : List Block → List String
  | [] => []
  | b :: bs => blockTexts b ++ docTexts bs

/-- The tables of a document, in order. -/
def docTables : List Block → List Table
  | [] => []
  | .table t :: bs => t :: docTables bs
  | _ :: bs => docTables bs

/-- Shape of a table: its number of rows paired with the cell count of each
row. -/
def tableShape (t : Table) : Nat × List Nat :=
  (t.rows.length, t.rows.map List.length)

/-- The full text of a block, its runs concatenated (a paragraph's `.text`
in python-docx). -/
def blockText (b : Block) : String :=
  String.join (blockTexts b)

/-- The text of cell `(r, c)` of a table, its runs concatenated. -/
def cellText (t : Table) (r c : Nat) : String :=
  String.join ((((t.rows.getD r []).getD c {}).runs).map (·.text))

/-- Placeholder scanner: walks the characters; outside a token (state
`none`) the opening `\x7b\x7b` enters a token, inside a token (state
`some acc`) the closing `\x7d\x7d` emits the accumulated name.  Applied to
the literal strings of the documents it extracts exactly their
`\x7b\x7b...\x7d\x7d` placeholders. -/
def scanTokens : List Char → Option (List Char) → List String
  | [], _ => []
  | '\x7b' :: '\x7b' :: rest, none => scanTokens rest (some [])
  | '\x7d' :: '\x7d' :: rest, some acc => String.mk acc :: scanTokens rest none
  | c :: cs, some acc => scanTokens cs (some (acc ++ [c]))
  | _ :: cs, none => scanTokens cs none

/-- The placeholder tokens of one string. -/
def tokensIn (s : String) : List String :=
  scanTokens s.data none

/-- The placeholder tokens of a list of strings, in order. -/
def textsTokens : List String → List String
  | [] => []
  | s :: ss => tokensIn s ++ textsTokens ss

/-- All placeholder tokens of a document, in order of appearance. -/
def docTokens (bs : List Block) : List String :=
  textsTokens (docTexts bs)

/-- A downstream filler: replace each `\x7b\x7bname\x7d\x7d` token by
`env name`, leaving every character outside a token verbatim.  Same state
machine as `scanTokens`. -/
def substAux (env : String → String) : List Char → Option (List Char) → String
  | [], none => ""
  | [], some acc => String.mk ('\x7b' :: '\x7b' :: acc)
  | '\x7b' :: '\x7b' :: rest, none => substAux env rest (some [])
  | '\x7d' :: '\x7d' :: rest, some acc => env (String.mk acc) ++ substAux env rest none
  | c :: cs, some acc => substAux env cs (some (acc ++ [c]))
  | c :: cs, none => String.singleton c ++ substAux env cs none

/-- Substitute every placeholder token of `s` by its `env` value. -/
def substTokens (env : String → String) (s : String) : String :=
  substAux env s.data none

/-- Month names as rendered by `strftime`'s `%B`, January first. -/
def monthNames : List String :=
  ["January", "February", "March", "April", "May", "June",
   "July", "August", "September", "October", "November", "December"]

/-- The `%B` full month name for month index `m` (0 = January). -/
def monthName (m : Fin 12) : String :=
  monthNames.getD m.val ""

/-- Decimal digits of `n`, most significant first, with enough fuel
(structural recursion so concrete values reduce definitionally). -/
def digitsAux : Nat → Nat → List Char
  | 0, _ => []
  | fuel + 1, n =>
    if n < 10 then [Nat.digitChar n]
    else digitsAux fuel (n / 10) ++ [Nat.digitChar (n % 10)]

/-- Decimal rendering of a natural number, as Python's `str`. -/
def natRepr (n : Nat) : String :=
  String.mk (digitsAux (n + 1) n)

/-- `strftime`'s `%d`: the day of month, zero-padded to two digits. -/
def pad2 (n : Nat) : String :=
  if n < 10 then "0" ++ natRepr n else natRepr n

/-- `datetime.now().strftime("%B %d, %Y")`, as a function of the month index
(0 = January), day and year read from the clock. -/
def strftimeBdY (m : Fin 12) (d y : Nat) : String :=
  monthName m ++ " " ++ pad2 d ++ ", " ++ natRepr y

/-- A filesystem error: `os.makedirs` failing, or `doc.save` failing.  In
Python these surface as uncaught `OSError` exceptions. -/
inductive FsError where
  | mkdirFailed
  | saveFailed
deriving DecidableEq

/-- The filesystem as the scripts observe it.  Paths are component lists
relative to the script's own directory (so `".."` is a literal leading
component, as produced by `os.path.join(os.path.dirname(__file__), '..', ...)`,
which does not normalize).  `writable d` says whether new entries may be
created inside directory `d`. -/
structure FsState where
  dirs : List (List String)
  files : List (List String)
  writable : List String → Bool

/-- Create each directory of the list in order, skipping ones that exist
(`exist_ok=True`); creating a missing directory requires its parent to be
writable, and the first refusal aborts with the propagated error. -/
def mkdirsGo : FsState → List (List String) → FsState × Option FsError
  | fs, [] => (fs, none)
  | fs, q :: qs =>
    if q ∈ fs.dirs then mkdirsGo fs qs
    else if fs.writable q.dropLast then mkdirsGo { fs with dirs := q :: fs.dirs } qs
    else (fs, some .mkdirFailed)

/-- The proper non-empty prefixes of a path, shortest first: the chain of
intermediate directories `os.makedirs` walks. -/
def prefixesOf (p : List String) : List (List String) :=
  (List.range p.length).map (fun i => p.take (i + 1))

/-- `os.makedirs(p, exist_ok=True)`: create every missing directory on the
chain leading to `p`. -/
def makedirs (fs : FsState) (p : List String) : FsState × Option FsError :=
  mkdirsGo fs (prefixesOf p)

/-- `doc.save(p)`: opening the file for writing requires the containing
directory to exist and be writable; on success the whole file appears, on
failure the filesystem is unchanged (the open fails before anything is
written). -/
def save (fs : FsState) (p : List String) : FsState × Option FsError :=
  if p.dropLast ∈ fs.dirs ∧ fs.writable p.dropLast = true then
    ({ fs with files := p :: fs.files }, none)
  else (fs, some .saveFailed)

/-- `os.path.join(base, *parts)` for relative parts: the components joined
with `/`. -/
def osPathJoin (base : String) (parts : List String) : String :=
  String.intercalate "/" (base :: parts)

/-- The observable outcome of one script run: the final filesystem, the
document written (when the save happened), the lines printed to stdout, and
the uncaught exception that aborted the run, if any. -/
structure RunResult where
  fs : FsState
  outDoc : Option (List Block)
  stdout : List String
  err : Option FsError

/-- The process exit status: Python exits non-zero exactly when an uncaught
exception aborts the script. -/
def exitCode (r : RunResult) : Nat :=
  if r.err.isSome then 1 else 0

/-- The save-and-print tail of a run, after `os.makedirs` succeeded:
`doc.save(outputPath)`, then the `print` calls; a save error aborts,
printing nothing and producing no document. -/
def saveStep (op : List String) (docv : List Block) (lines : List String)
    (fs1 : FsState) : RunResult :=
  match save fs1 op with
  | (fs2, some e) => ⟨fs2, none, [], some e⟩
  | (fs2, none) => ⟨fs2, some docv, lines, none⟩

/-- The shared tail of both scripts: `os.makedirs(outputDir, exist_ok=True)`,
then `doc.save(outputPath)`, then the `print` calls.  Neither script catches
any exception, so the first error aborts the run: nothing later is printed
and no document is produced. -/
def scriptRun (od op : List String) (docv : List Block) (lines : List String)
    (fs : FsState) : RunResult :=
  match makedirs fs od with
  | (fs1, some e) => ⟨fs1, none, [], some e⟩
  | (fs1, none) => saveStep op docv lines fs1

namespace CreateLoanTemplate

/-- Letterhead title paragraph: centered bold 16pt run in `RGBColor(0, 51, 102)`. -/
def header : Block :=
  .para { runs := [⟨"FINANCIAL SERVICES COMPANY", some true, some 16, some ⟨0, 51, 102⟩⟩],
          align := .center }

/-- Contact-info sub-header: centered paragraph with two 9pt runs. -/
def header2 : Block :=
  .para { runs := [⟨"123 Main Street • Suite 500 • Anytown, ST 12345\n", none, some 9, none⟩,
                   ⟨"Phone: (555) 123-4567 • Email: loans@financialservices.com", none, some 9, none⟩],
          align := .center }

/-- Divider paragraph: `'_' * 80`. -/
def divider : Block :=
  .para { runs := [mkRun (String.mk (List.replicate 80 '_'))] }

/-- An empty `doc.add_paragraph()`. -/
def emptyP : Block :=
  .para {}

/-- Right-aligned date stamp: `f'Date: {datetime.now().strftime("%B %d, %Y")}'`,
over the already-formatted date string. -/
def date_para (date : String) : Block :=
  .para { runs := [mkRun ("Date: " ++ date)], align := .right }

/-- Centered level-1 heading. -/
def title : Block :=
  .heading "LOAN APPLICATION SUMMARY" 1 .center

/-- Applicant Information table: 5 rows, 2 columns, cells assigned in source
order. -/
def applicant_table : Table :=
  addTable 5 2 "Light Grid Accent 1"
    |>.setText 0 0 "Full Name:"
    |>.setText 0 1 "\x7b\x7bfirstName\x7d\x7d \x7b\x7blastName\x7d\x7d"
    |>.setText 1 0 "Email Address:"
    |>.setText 1 1 "\x7b\x7bemail\x7d\x7d"
    |>.setText 2 0 "Phone Number:"
    |>.setText 2 1 "\x7b\x7bphone\x7d\x7d"
    |>.setText 3 0 "Date of Birth:"
    |>.setText 3 1 "\x7b\x7bdateOfBirth\x7d\x7d"
    |>.setText 4 0 "SSN (last 4 digits):"
    |>.setText 4 1 "XXX-XX-\x7b\x7bssn\x7d\x7d"

/-- Employment Information table: 4 rows, 2 columns. -/
def employment_table : Table :=
  addTable 4 2 "Light Grid Accent 1"
    |>.setText 0 0 "Employment Status:"
    |>.setText 0 1 "\x7b\x7bemploymentStatus\x7d\x7d"
    |>.setText 1 0 "Employer Name:"
    |>.setText 1 1 "\x7b\x7bemployerName\x7d\x7d"
    |>.setText 2 0 "Job Title:"
    |>.setText 2 1 "\x7b\x7bjobTitle\x7d\x7d"
    |>.setText 3 0 "Annual Income:"
    |>.setText 3 1 "$\x7b\x7bannualIncome\x7d\x7d"

/-- Loan Request Details table: 3 rows, 2 columns; the requested-amount cell
gets a bold, 12pt, `RGBColor(0, 102, 0)` (green) run. -/
def loan_table : Table :=
  addTable 3 2 "Light Grid Accent 1"
    |>.setText 0 0 "Requested Amount:"
    |>.setRun 0 1 ⟨"$\x7b\x7bloanAmount\x7d\x7d", some true, some 12, some ⟨0, 102, 0⟩⟩
    |>.setText 1 0 "Loan Purpose:"
    |>.setText 1 1 "\x7b\x7bloanPurpose\x7d\x7d"
    |>.setText 2 0 "Preferred Term:"
    |>.setText 2 1 "\x7b\x7bloanTerm\x7d\x7d"

/-- Financial Analysis table: 3 rows, 2 columns. -/
def analysis_table : Table :=
  addTable 3 2 "Light Grid Accent 1"
    |>.setText 0 0 "Monthly Income:"
    |>.setText 0 1 "$\x7b\x7bdebtToIncomeRatio.monthlyIncome\x7d\x7d"
    |>.setText 1 0 "Monthly Debt Payments:"
    |>.setText 1 1 "$\x7b\x7bmonthlyDebt\x7d\x7d"
    |>.setText 2 0 "Debt-to-Income Ratio:"
    |>.setText 2 1 "\x7b\x7bdebtToIncomeRatio.ratio\x7d\x7d% (\x7b\x7bdebtToIncomeRatio.status\x7d\x7d)"

/-- Centered bold status line. -/
def disclaimer : Block :=
  .para { runs := [⟨"APPLICATION STATUS: PENDING REVIEW", some true, some 12, some ⟨0, 51, 102⟩⟩],
          align := .center }

/-- Next-steps paragraph: a bold label run followed by the fixed 3-item
instructions run. -/
def next_steps : Block :=
  .para { runs := [⟨"Next Steps:\n", some true, none, none⟩,
                   mkRun ("1. A loan officer will review your application within 2-3 business days\n" ++
                          "2. You may be contacted for additional documentation\n" ++
                          "3. Upon approval, you will receive loan terms and documentation to sign\n")] }

/-- Small gray centered confidentiality footer. -/
def footer_para : Block :=
  .para { runs := [⟨"This document is confidential and intended solely for the named applicant.\n" ++
                   "Please contact us at (555) 123-4567 with any questions.", none, some 8,
                   some ⟨128, 128, 128⟩⟩],
          align := .center }

/-- The loan-application-summary document, block by block in the script's
source order, as a function of the formatted current-date string. -/
def doc (date : String) : List Block :=
  [header, header2, divider, emptyP, date_para date, emptyP, title, emptyP,
   .heading "Applicant Information" 2 .left, .table applicant_table, emptyP,
   .heading "Employment Information" 2 .left, .table employment_table, emptyP,
   .heading "Loan Request Details" 2 .left, .table loan_table, emptyP,
   .heading "Financial Analysis" 2 .left, .table analysis_table, emptyP,
   divider, emptyP, disclaimer, emptyP, next_steps, emptyP, footer_para]

/-- `os.path.join(os.path.dirname(__file__), '..', 'server', 'files',
'templates')`, as components relative to the script's directory. -/
def output_dir : List String :=
  ["..", "server", "files", "templates"]

/-- `os.path.join(output_dir, 'loan-application-summary.docx')`. -/
def output_path : List String :=
  output_dir ++ ["loan-application-summary.docx"]

/-- The script's `print` calls after a successful save, in order. -/
def printedLines (scriptDir : String) : List String :=
  ["[OK] Template created: " ++ osPathJoin scriptDir output_path,
   "\nTemplate includes the following placeholders:",
   "  - \x7b\x7bfirstName\x7d\x7d, \x7b\x7blastName\x7d\x7d",
   "  - \x7b\x7bemail\x7d\x7d, \x7b\x7bphone\x7d\x7d, \x7b\x7bdateOfBirth\x7d\x7d, \x7b\x7bssn\x7d\x7d",
   "  - \x7b\x7bemploymentStatus\x7d\x7d, \x7b\x7bemployerName\x7d\x7d, \x7b\x7bjobTitle\x7d\x7d",
   "  - \x7b\x7bannualIncome\x7d\x7d, \x7b\x7bmonthlyDebt\x7d\x7d",
   "  - \x7b\x7bloanAmount\x7d\x7d, \x7b\x7bloanPurpose\x7d\x7d, \x7b\x7bloanTerm\x7d\x7d",
   "  - \x7b\x7bdebtToIncomeRatio.ratio\x7d\x7d, \x7b\x7bdebtToIncomeRatio.status\x7d\x7d, \x7b\x7bdebtToIncomeRatio.monthlyIncome\x7d\x7d",
   "\nTemplate ready for use!"]

/-- One run of `createLoanTemplate.py`: build the document from the current
date, `os.makedirs(output_dir, exist_ok=True)`, `doc.save(output_path)`,
then print; an uncaught error aborts before anything further happens. -/
def run (scriptDir : String) (fs : FsState) (m : Fin 12) (d y : Nat) : RunResult :=
  scriptRun output_dir output_path (doc (strftimeBdY m d y)) (printedLines scriptDir) fs

/-- The blocks appended before the date paragraph. -/
def docPre : List Block := [header, header2, divider, emptyP]

/-- The blocks appended after the date paragraph. -/
def docPost : List Block :=
  [emptyP, title, emptyP,
   .heading "Applicant Information" 2 .left, .table applicant_table, emptyP,
   .heading "Employment Information" 2 .left, .table employment_table, emptyP,
   .heading "Loan Request Details" 2 .left, .table loan_table, emptyP,
   .heading "Financial Analysis" 2 .left, .table analysis_table, emptyP,
   divider, emptyP, disclaimer, emptyP, next_steps, emptyP, footer_para]

/-- The loan document's placeholder tokens in order of appearance. -/
def docOrderTokens : List String :=
  ["firstName", "lastName", "email", "phone", "dateOfBirth", "ssn",
   "employmentStatus", "employerName", "jobTitle", "annualIncome",
   "loanAmount", "loanPurpose", "loanTerm", "debtToIncomeRatio.monthlyIncome",
   "monthlyDebt", "debtToIncomeRatio.ratio", "debtToIncomeRatio.status"]

/-- The loan document's token set as the specification enumerates it. -/
def specTokens : List String :=
  ["firstName", "lastName", "email", "phone", "dateOfBirth", "ssn",
   "employmentStatus", "employerName", "jobTitle", "annualIncome",
   "monthlyDebt", "loanAmount", "loanPurpose", "loanTerm",
   "debtToIncomeRatio.ratio", "debtToIncomeRatio.status",
   "debtToIncomeRatio.monthlyIncome"]

end CreateLoanTemplate

namespace CreateTestTemplate

/-- The welcome-letter details table: 3 rows, 2 columns. -/
def table : Table :=
  addTable 3 2 "Light Grid Accent 1"
    |>.setText 0 0 "First Name:"
    |>.setText 0 1 "\x7b\x7bfirstName\x7d\x7d"
    |>.setText 1 0 "Last Name:"
    |>.setText 1 1 "\x7b\x7blastName\x7d\x7d"
    |>.setText 2 0 "Email:"
    |>.setText 2 1 "\x7b\x7bemail\x7d\x7d"

/-- A paragraph holding a single plain-text run. -/
def textP (s : String) : Block :=
  .para { runs := [mkRun s] }

/-- The welcome-letter document, block by block in the script's source
order; it involves no run-time input at all. -/
def doc : List Block :=
  [.heading "Welcome Letter" 1 .center,
   .para {},
   textP "Dear \x7b\x7bfirstName\x7d\x7d \x7b\x7blastName\x7d\x7d,",
   .para {},
   textP "Thank you for completing our workflow! We have successfully received your information.",
   .para {},
   textP "Your Details:",
   .table table,
   .para {},
   textP "We look forward to working with you!",
   .para {},
   textP "Best regards,",
   textP "The VaultLogic Team"]

/-- `os.path.join(os.path.dirname(__file__), '..', 'uploads', 'templates',
'welcome-letter.docx')`, as components relative to the script's directory. -/
def output_path : List String :=
  ["..", "uploads", "templates", "welcome-letter.docx"]

/-- `os.path.dirname(output_path)`, the argument of `os.makedirs`. -/
def output_dir : List String :=
  ["..", "uploads", "templates"]

/-- The script's `print` calls after a successful save, in order. -/
def printedLines (scriptDir : String) : List String :=
  ["Template created: " ++ osPathJoin scriptDir output_path,
   "Template includes placeholders: \x7b\x7bfirstName\x7d\x7d, \x7b\x7blastName\x7d\x7d, \x7b\x7bemail\x7d\x7d"]

/-- One run of `createTestTemplate.py`: build the constant document,
`os.makedirs(os.path.dirname(output_path), exist_ok=True)`,
`doc.save(output_path)`, then print; an uncaught error aborts the run. -/
def run (scriptDir : String) (fs : FsState) : RunResult :=
  scriptRun output_dir output_path doc (printedLines scriptDir) fs

/-- The welcome letter's token set. -/
def specTokens : List String := ["firstName", "lastName", "email"]

end CreateTestTemplate

/-- A filesystem with nothing in it yet and everything writable (a fresh
checkout: concrete-run fixture). -/
def fsFree : FsState :=
  ⟨[], [], fun _ => true⟩

/-- A filesystem in which exactly the two scripts' target directories are
unwritable (concrete-run fixture). -/
def fsBlocked : FsState :=
  ⟨[], [],
   fun p => decide (p ≠ CreateLoanTemplate.output_dir ∧ p ≠ CreateTestTemplate.output_dir)⟩

/-! ### Lemmas: the placeholder scanner on brace-free strings -/

/-- Scanning a two-or-more character list that does not open a token steps
past the first character. -/
lemma scan_two (c c2 : Char) (rest : List Char) (hc : c ≠ '\x7b') :
    scanTokens (c :: c2 :: rest) none = scanTokens (c2 :: rest) none := by
  rw [scanTokens.eq_def]
  split <;> simp_all

/-- Scanning a single character outside a token yields nothing. -/
lemma scan_one (c : Char) : scanTokens [c] none = [] := by
  rw [scanTokens.eq_def]
  split <;> simp_all [scanTokens]

/-- A string without an opening brace holds no placeholder token. -/
lemma scanTokens_none_eq_nil (l : List Char) (h : '\x7b' ∉ l) : scanTokens l none = [] := by
  induction l with
  | nil => rfl
  | cons c cs ih =>
    have hc : c ≠ '\x7b' := fun he => h (he ▸ List.mem_cons_self c cs)
    have hcs : '\x7b' ∉ cs := fun hm => h (List.mem_cons_of_mem c hm)
    cases cs with
    | nil => exact scan_one c
    | cons c2 rest => rw [scan_two c c2 rest hc]; exact ih hcs

/-- `tokensIn` of a brace-free string is empty. -/
lemma tokensIn_eq_nil (s : String) (h : '\x7b' ∉ s.data) : tokensIn s = [] :=
  scanTokens_none_eq_nil s.data h

/-- Appending strings concatenates their character lists. -/
lemma str_data_append (s t : String) : (s ++ t).data = s.data ++ t.data := rfl

/-- A decimal digit character is not an opening brace. -/
lemma digitChar_lt_ne_lb (k : Nat) (hk : k < 10) : Nat.digitChar k ≠ '\x7b' := by
  interval_cases k <;> decide

/-- The digit rendering of a number holds no opening brace. -/
lemma digitsAux_ne_lb (fuel n : Nat) : '\x7b' ∉ digitsAux fuel n := by
  induction fuel generalizing n with
  | zero => simp [digitsAux]
  | succ fuel ih =>
    simp only [digitsAux]
    split
    · rename_i hlt
      simp only [List.mem_singleton]
      intro h
      exact digitChar_lt_ne_lb n hlt h.symm
    · intro h
      rcases List.mem_append.mp h with h1 | h1
      · exact ih _ h1
      · simp only [List.mem_singleton] at h1
        exact digitChar_lt_ne_lb (n % 10) (Nat.mod_lt _ (by omega)) h1.symm

/-- `natRepr` holds no opening brace. -/
lemma natRepr_ne_lb (n : Nat) : '\x7b' ∉ (natRepr n).data :=
  digitsAux_ne_lb (n + 1) n

/-- `pad2` holds no opening brace. -/
lemma pad2_ne_lb (n : Nat) : '\x7b' ∉ (pad2 n).data := by
  unfold pad2
  split
  · rw [str_data_append]
    intro h
    rcases List.mem_append.mp h with h1 | h1
    · exact absurd h1 (by decide)
    · exact natRepr_ne_lb n h1
  · exact natRepr_ne_lb n

/-- No month name holds an opening brace. -/
lemma monthName_ne_lb (m : Fin 12) : '\x7b' ∉ (monthName m).data := by
  have hall : ∀ m : Fin 12, decide ('\x7b' ∈ (monthName m).data) = false := by decide
  intro h
  have h2 := hall m
  rw [decide_eq_true h] at h2
  exact Bool.noConfusion h2

/-- The formatted current date holds no opening brace, whatever the month,
day and year are. -/
lemma strftimeBdY_ne_lb (m : Fin 12) (d y : Nat) : '\x7b' ∉ (strftimeBdY m d y).data := by
  unfold strftimeBdY
  simp only [str_data_append, List.mem_append]
  intro h
  rcases h with ((((h | h) | h) | h) | h)
  · exact monthName_ne_lb m h
  · exact absurd h (by decide)
  · exact pad2_ne_lb d h
  · exact absurd h (by decide)
  · exact natRepr_ne_lb y h

/-! ### Lemmas: tokens of a whole document -/

lemma docTexts_append (l1 l2 : List Block) : docTexts (l1 ++ l2) = docTexts l1 ++ docTexts l2 := by
  induction l1 with
  | nil => rfl
  | cons b bs ih => simp [docTexts, ih]

lemma textsTokens_append (l1 l2 : List String) :
    textsTokens (l1 ++ l2) = textsTokens l1 ++ textsTokens l2 := by
  induction l1 with
  | nil => rfl
  | cons s ss ih => simp [textsTokens, ih]

lemma docTokens_append (l1 l2 : List Block) :
    docTokens (l1 ++ l2) = docTokens l1 ++ docTokens l2 := by
  simp [docTokens, docTexts_append, textsTokens_append]

/-- The date paragraph's text is brace-free whenever the date string is. -/
lemma date_no_lb (date : String) (h : '\x7b' ∉ date.data) :
    '\x7b' ∉ ("Date: " ++ date).data := by
  rw [str_data_append]
  intro hm
  rcases List.mem_append.mp hm with h1 | h1
  · exact absurd h1 (by decide)
  · exact h h1

namespace CreateLoanTemplate

/-- Whatever brace-free date string the clock produced, the loan document's
token list is exactly `docOrderTokens`. -/
lemma docTokens_doc (date : String) (h : '\x7b' ∉ date.data) :
    docTokens (doc date) = docOrderTokens := by
  have h0 : doc date = docPre ++ [date_para date] ++ docPost := rfl
  rw [h0, docTokens_append, docTokens_append]
  have h1 : docTokens [date_para date] = [] := by
    simp only [docTokens, docTexts, blockTexts, date_para, mkRun, List.map, textsTokens,
               List.append_nil]
    rw [tokensIn_eq_nil _ (date_no_lb date h)]
  have h2 : docTokens docPre = [] := by decide
  have h3 : docTokens docPost = docOrderTokens := by decide
  rw [h1, h2, h3]
  rfl

/-- Membership in the loan document's tokens coincides with membership in
the specification's token set, for every date the clock can produce. -/
lemma loan_tokens_mem_iff (m : Fin 12) (d y : Nat) (t : String) :
    t ∈ docTokens (doc (strftimeBdY m d y)) ↔ t ∈ specTokens := by
  rw [docTokens_doc _ (strftimeBdY_ne_lb m d y)]
  exact (show docOrderTokens.Perm specTokens from by decide).mem_iff

end CreateLoanTemplate

namespace CreateTestTemplate

/-- Membership in the welcome document's tokens coincides with membership in
its three-token set. -/
lemma test_tokens_mem_iff (t : String) : t ∈ docTokens doc ↔ t ∈ specTokens := by
  rw [show docTokens doc = ["firstName", "lastName", "firstName", "lastName", "email"]
      from by decide]
  simp only [specTokens, List.mem_cons, List.not_mem_nil, or_false]
  tauto

end CreateTestTemplate

/-! ### Lemmas: the filesystem model and the shared run shape -/

lemma mkdirsGo_files (l : List (List String)) (fs : FsState) :
    (mkdirsGo fs l).1.files = fs.files := by
  induction l generalizing fs with
  | nil => rfl
  | cons q qs ih =>
    simp only [mkdirsGo]
    split
    · exact ih fs
    · split
      · exact ih _
      · rfl

lemma mkdirsGo_writable (l : List (List String)) (fs : FsState) :
    (mkdirsGo fs l).1.writable = fs.writable := by
  induction l generalizing fs with
  | nil => rfl
  | cons q qs ih =>
    simp only [mkdirsGo]
    split
    · exact ih fs
    · split
      · exact ih _
      · rfl

lemma mkdirsGo_dirs_mono (l : List (List String)) (fs : FsState) :
    ∀ q ∈ fs.dirs, q ∈ (mkdirsGo fs l).1.dirs := by
  induction l generalizing fs with
  | nil => exact fun q h => h
  | cons q qs ih =>
    intro q' h'
    simp only [mkdirsGo]
    split
    · exact ih fs q' h'
    · split
      · exact ih _ q' (List.mem_cons_of_mem q h')
      · exact h'

/-- With everything writable, `mkdirsGo` succeeds and ends with all the
requested directories present. -/
lemma mkdirsGo_all_ok (l : List (List String)) (fs : FsState)
    (hw : ∀ p, fs.writable p = true) :
    (mkdirsGo fs l).2 = none ∧ ∀ q ∈ l, q ∈ (mkdirsGo fs l).1.dirs := by
  induction l generalizing fs with
  | nil => exact ⟨rfl, by simp⟩
  | cons q qs ih =>
    simp only [mkdirsGo]
    split
    · rename_i hq
      obtain ⟨he, hm⟩ := ih fs hw
      refine ⟨he, ?_⟩
      intro q' h'
      rcases List.mem_cons.mp h' with h1 | h1
      · subst h1
        exact mkdirsGo_dirs_mono qs fs q' hq
      · exact hm q' h1
    · rw [hw q.dropLast, if_pos rfl]
      obtain ⟨he, hm⟩ := ih { fs with dirs := q :: fs.dirs } hw
      refine ⟨he, ?_⟩
      intro q' h'
      rcases List.mem_cons.mp h' with h1 | h1
      · subst h1
        exact mkdirsGo_dirs_mono qs _ q' (List.mem_cons_self q' fs.dirs)
      · exact hm q' h1

/-- With everything writable, `makedirs` then `save` both succeed, the whole
directory chain exists, and the file is present. -/
lemma makedirs_save_ok (fs : FsState) (od p : List String)
    (hw : ∀ q, fs.writable q = true) (hdrop : p.dropLast = od) (hodp : od ∈ prefixesOf od) :
    (makedirs fs od).2 = none ∧
    (save (makedirs fs od).1 p).2 = none ∧
    (∀ q ∈ prefixesOf od, q ∈ (save (makedirs fs od).1 p).1.dirs) ∧
    p ∈ (save (makedirs fs od).1 p).1.files := by
  obtain ⟨he, hm⟩ := mkdirsGo_all_ok (prefixesOf od) fs hw
  have hdir : p.dropLast ∈ (makedirs fs od).1.dirs := by
    rw [hdrop]
    exact hm od hodp
  have hwr : (makedirs fs od).1.writable p.dropLast = true := by
    show (mkdirsGo fs (prefixesOf od)).1.writable p.dropLast = true
    rw [mkdirsGo_writable]
    exact hw _
  have hsave : save (makedirs fs od).1 p =
      ({ (makedirs fs od).1 with files := p :: (makedirs fs od).1.files }, none) := by
    simp only [save]
    rw [if_pos ⟨hdir, hwr⟩]
  refine ⟨he, ?_, ?_, ?_⟩
  · rw [hsave]
  · intro q hq
    rw [hsave]
    exact hm q hq
  · rw [hsave]
    exact List.mem_cons_self p _

/-- A failing `save` leaves the filesystem exactly as it was. -/
lemma save_snd_some (fs : FsState) (p : List String) (h : (save fs p).2.isSome = true) :
    save fs p = (fs, some .saveFailed) := by
  revert h
  simp only [save]
  split
  · intro h
    exact absurd h (by simp)
  · intro _
    rfl

/-- Saving into an unwritable directory fails and changes nothing. -/
lemma save_unwritable (fs : FsState) (p : List String)
    (h : fs.writable p.dropLast = false) : save fs p = (fs, some .saveFailed) := by
  simp only [save]
  rw [if_neg]
  rintro ⟨_, h2⟩
  rw [h] at h2
  exact Bool.noConfusion h2

/-- When `makedirs` fails, the run aborts with that error. -/
lemma scriptRun_eq_mkdir_fail (od op : List String) (docv : List Block) (lines : List String)
    (fs a : FsState) (e : FsError) (hmk : makedirs fs od = (a, some e)) :
    scriptRun od op docv lines fs = ⟨a, none, [], some e⟩ := by
  unfold scriptRun
  rw [hmk]

/-- When `makedirs` succeeds and `save` fails, the run aborts with the save
error. -/
lemma scriptRun_eq_save_fail (od op : List String) (docv : List Block) (lines : List String)
    (fs a a2 : FsState) (e : FsError) (hmk : makedirs fs od = (a, none))
    (hsv : save a op = (a2, some e)) :
    scriptRun od op docv lines fs = ⟨a2, none, [], some e⟩ := by
  unfold scriptRun
  rw [hmk]
  show saveStep op docv lines a = _
  unfold saveStep
  rw [hsv]

/-- When both steps succeed, the run returns the saved document and the
printed lines. -/
lemma scriptRun_eq_ok (od op : List String) (docv : List Block) (lines : List String)
    (fs a a2 : FsState) (hmk : makedirs fs od = (a, none)) (hsv : save a op = (a2, none)) :
    scriptRun od op docv lines fs = ⟨a2, some docv, lines, none⟩ := by
  unfold scriptRun
  rw [hmk]
  show saveStep op docv lines a = _
  unfold saveStep
  rw [hsv]

/-- A successful run printed its lines and produced its document. -/
lemma scriptRun_err_none (od op : List String) (docv : List Block) (lines : List String)
    (fs : FsState) (h : (scriptRun od op docv lines fs).err = none) :
    (scriptRun od op docv lines fs).stdout = lines ∧
    (scriptRun od op docv lines fs).outDoc = some docv := by
  rcases hmk : makedirs fs od with ⟨a, b⟩
  cases b with
  | some e =>
    rw [scriptRun_eq_mkdir_fail od op docv lines fs a e hmk] at h
    exact absurd h (by simp)
  | none =>
    rcases hsv : save a op with ⟨a2, b2⟩
    cases b2 with
    | some e =>
      rw [scriptRun_eq_save_fail od op docv lines fs a a2 e hmk hsv] at h
      exact absurd h (by simp)
    | none =>
      rw [scriptRun_eq_ok od op docv lines fs a a2 hmk hsv]
      exact ⟨rfl, rfl⟩

/-- A failed run printed nothing, produced no document, and left the files
unchanged. -/
lemma scriptRun_err_some (od op : List String) (docv : List Block) (lines : List String)
    (fs : FsState) (h : (scriptRun od op docv lines fs).err.isSome = true) :
    (scriptRun od op docv lines fs).stdout = [] ∧
    (scriptRun od op docv lines fs).outDoc = none ∧
    (scriptRun od op docv lines fs).fs.files = fs.files := by
  rcases hmk : makedirs fs od with ⟨a, b⟩
  have hfiles : a.files = fs.files := by
    rw [show a = (makedirs fs od).1 from by rw [hmk]]
    exact mkdirsGo_files (prefixesOf od) fs
  cases b with
  | some e =>
    rw [scriptRun_eq_mkdir_fail od op docv lines fs a e hmk]
    exact ⟨rfl, rfl, hfiles⟩
  | none =>
    rcases hsv : save a op with ⟨a2, b2⟩
    cases b2 with
    | some e =>
      have h2 := save_snd_some a op (by rw [hsv]; rfl)
      rw [hsv] at h2
      have ha : a2 = a := congrArg Prod.fst h2
      rw [scriptRun_eq_save_fail od op docv lines fs a a2 e hmk hsv]
      exact ⟨rfl, rfl, by rw [ha]; exact hfiles⟩
    | none =>
      rw [scriptRun_eq_ok od op docv lines fs a a2 hmk hsv] at h
      exact absurd h (by simp)

/-- With everything writable, the run succeeds, the directory chain exists
and the output file is present. -/
lemma scriptRun_ok (od op : List String) (docv : List Block) (lines : List String)
    (fs : FsState) (hw : ∀ q, fs.writable q = true)
    (hdrop : op.dropLast = od) (hodp : od ∈ prefixesOf od) :
    (scriptRun od op docv lines fs).err = none ∧
    (∀ q ∈ prefixesOf od, q ∈ (scriptRun od op docv lines fs).fs.dirs) ∧
    op ∈ (scriptRun od op docv lines fs).fs.files := by
  obtain ⟨he, hs, hdirs, hfile⟩ := makedirs_save_ok fs od op hw hdrop hodp
  rcases hmk : makedirs fs od with ⟨a, b⟩
  rw [hmk] at he hs hdirs hfile
  have hb : b = none := he
  subst hb
  rcases hsv : save a op with ⟨a2, b2⟩
  rw [hsv] at hs hdirs hfile
  have hb2 : b2 = none := hs
  subst hb2
  rw [scriptRun_eq_ok od op docv lines fs a a2 hmk hsv]
  exact ⟨rfl, fun q hq => hdirs q hq, hfile⟩

/-- With the target directory unwritable, the run fails. -/
lemma scriptRun_unwritable (od op : List String) (docv : List Block) (lines : List String)
    (fs : FsState) (hdrop : op.dropLast = od) (h : fs.writable od = false) :
    (scriptRun od op docv lines fs).err.isSome = true := by
  rcases hmk : makedirs fs od with ⟨a, b⟩
  cases b with
  | some e =>
    rw [scriptRun_eq_mkdir_fail od op docv lines fs a e hmk]
    rfl
  | none =>
    have ha : a.writable = fs.writable := by
      rw [show a = (makedirs fs od).1 from by rw [hmk]]
      exact mkdirsGo_writable (prefixesOf od) fs
    have hsv : save a op = (a, some .saveFailed) := by
      apply save_unwritable
      rw [hdrop, ha]
      exact h
    rw [scriptRun_eq_save_fail od op docv lines fs a a FsError.saveFailed hmk hsv]
    rfl

/-- A run's document artifact is either absent or exactly the built
document. -/
lemma scriptRun_outDoc (od op : List String) (docv : List Block) (lines : List String)
    (fs : FsState) :
    (scriptRun od op docv lines fs).outDoc = none ∨
    (scriptRun od op docv lines fs).outDoc = some docv := by
  rcases hmk : makedirs fs od with ⟨a, b⟩
  cases b with
  | some e =>
    left
    rw [scriptRun_eq_mkdir_fail od op docv lines fs a e hmk]
  | none =>
    rcases hsv : save a op with ⟨a2, b2⟩
    cases b2 with
    | some e =>
      left
      rw [scriptRun_eq_save_fail od op docv lines fs a a2 e hmk hsv]
    | none =>
      right
      rw [scriptRun_eq_ok od op docv lines fs a a2 hmk hsv]

/-- Behaviour of a run whose target directory is unwritable: it aborts with
an error, exits non-zero, prints nothing, writes no document and leaves the
files as they were. -/
lemma run_blocked (od op : List String) (docv : List Block) (lines : List String)
    (fs : FsState) (hdrop : op.dropLast = od) (h : fs.writable od = false) :
    (scriptRun od op docv lines fs).err.isSome = true ∧
    exitCode (scriptRun od op docv lines fs) = 1 ∧
    (scriptRun od op docv lines fs).stdout = [] ∧
    (scriptRun od op docv lines fs).outDoc = none ∧
    (scriptRun od op docv lines fs).fs.files = fs.files := by
  have h1 := scriptRun_unwritable od op docv lines fs hdrop h
  obtain ⟨hs, ho, hf⟩ := scriptRun_err_some od op docv lines fs h1
  refine ⟨h1, ?_, hs, ho, hf⟩
  simp [exitCode, h1]

/-- Unfolding of the loan script's run to the shared shape. -/
lemma CreateLoanTemplate.loan_run_def (sd : String) (fs : FsState) (m : Fin 12) (d y : Nat) :
    CreateLoanTemplate.run sd fs m d y =
      scriptRun CreateLoanTemplate.output_dir CreateLoanTemplate.output_path
        (CreateLoanTemplate.doc (strftimeBdY m d y)) (CreateLoanTemplate.printedLines sd) fs :=
  rfl

/-- Unfolding of the welcome script's run to the shared shape. -/
lemma CreateTestTemplate.test_run_def (sd : String) (fs : FsState) :
    CreateTestTemplate.run sd fs =
      scriptRun CreateTestTemplate.output_dir CreateTestTemplate.output_path
        CreateTestTemplate.doc (CreateTestTemplate.printedLines sd) fs :=
  rfl

/-- Strings with the same characters are equal. -/
lemma str_ext (a b : String) (h : a.data = b.data) : a = b := by
  cases a
  cases b
  exact congrArg String.mk h

lemma str_singleton_data (c : Char) : (String.singleton c).data = [c] := rfl

lemma str_empty_data : ("" : String).data = [] := rfl

/-- Filling the SSN cell substitutes only the token and keeps the literal
prefix verbatim. -/
lemma subst_ssn (env : String → String) :
    substTokens env "XXX-XX-\x7b\x7bssn\x7d\x7d" = "XXX-XX-" ++ env "ssn" := by
  apply str_ext
  rw [show substTokens env "XXX-XX-\x7b\x7bssn\x7d\x7d" =
      String.singleton 'X' ++ (String.singleton 'X' ++ (String.singleton 'X' ++
      (String.singleton '-' ++ (String.singleton 'X' ++ (String.singleton 'X' ++
      (String.singleton '-' ++ (env "ssn" ++ ""))))))) from rfl]
  simp [str_data_append, str_singleton_data, str_empty_data,
        show ("XXX-XX-" : String).data = ['X', 'X', 'X', '-', 'X', 'X', '-'] from rfl]

/-- Filling the debt-to-income cell substitutes the two tokens and keeps the
literal percent sign and parentheses verbatim. -/
lemma subst_dti (env : String → String) :
    substTokens env
        "\x7b\x7bdebtToIncomeRatio.ratio\x7d\x7d% (\x7b\x7bdebtToIncomeRatio.status\x7d\x7d)" =
      env "debtToIncomeRatio.ratio" ++ "% (" ++ env "debtToIncomeRatio.status" ++ ")" := by
  apply str_ext
  rw [show substTokens env
      "\x7b\x7bdebtToIncomeRatio.ratio\x7d\x7d% (\x7b\x7bdebtToIncomeRatio.status\x7d\x7d)" =
      env "debtToIncomeRatio.ratio" ++ (String.singleton '%' ++ (String.singleton ' ' ++
      (String.singleton '(' ++ (env "debtToIncomeRatio.status" ++ (String.singleton ')' ++ ""))))) from rfl]
  simp [str_data_append, str_singleton_data, str_empty_data,
        show ("% (" : String).data = ['%', ' ', '('] from rfl,
        show (")" : String).data = [')'] from rfl]

/-! ### The claims -/

/-- C1: the set of placeholder tokens embedded in the loan-template document
equals exactly the seventeen names firstName, lastName, email, phone,
dateOfBirth, ssn, employmentStatus, employerName, jobTitle, annualIncome,
monthlyDebt, loanAmount, loanPurpose, loanTerm, debtToIncomeRatio.ratio,
debtToIncomeRatio.status, debtToIncomeRatio.monthlyIncome — for every date
the clock can produce, a string is a token of the document iff it is in that
set. -/
theorem claim_C1 (m : Fin 12) (d y : Nat) (t : String) :
    t ∈ docTokens (CreateLoanTemplate.doc (strftimeBdY m d y)) ↔
      t ∈ CreateLoanTemplate.specTokens :=
  CreateLoanTemplate.loan_tokens_mem_iff m d y t

/-- C2: the set of placeholder tokens embedded in the welcome-letter
document equals exactly firstName, lastName, email. -/
theorem claim_C2 (t : String) :
    t ∈ docTokens CreateTestTemplate.doc ↔ t ∈ CreateTestTemplate.specTokens :=
  CreateTestTemplate.test_tokens_mem_iff t

/-- C3: the loan generator appends exactly four tables, in order of shape
5 rows / 2 columns, 4/2, 3/2, 3/2, and the welcome generator exactly one of
shape 3/2 (each table's every row has two cells). -/
theorem claim_C3 (date : String) :
    (docTables (CreateLoanTemplate.doc date)).map tableShape =
      [(5, [2, 2, 2, 2, 2]), (4, [2, 2, 2, 2]), (3, [2, 2, 2]), (3, [2, 2, 2])] ∧
    (docTables CreateTestTemplate.doc).map tableShape = [(3, [2, 2, 2])] :=
  ⟨rfl, by decide⟩

/-- C4 counterexample: resolved relative to the generator's own directory,
the output paths start with a `..` component (they lie under the parent
directory), so they are not the claimed `server/files/templates/...` and
`uploads/templates/...` relative to the generator's location. -/
theorem claim_C4_counterexample :
    CreateLoanTemplate.output_path ≠
      ["server", "files", "templates", "loan-application-summary.docx"] ∧
    CreateTestTemplate.output_path ≠ ["uploads", "templates", "welcome-letter.docx"] ∧
    CreateLoanTemplate.output_path =
      [".."] ++ ["server", "files", "templates", "loan-application-summary.docx"] ∧
    CreateTestTemplate.output_path = [".."] ++ ["uploads", "templates", "welcome-letter.docx"] := by
  decide

/-- C4 (amended): the loan generator writes to the fixed relative path
../server/files/templates/loan-application-summary.docx and the welcome
generator to ../uploads/templates/welcome-letter.docx, each resolved
relative to the generator's own directory (so under its parent directory);
for every initial filesystem with everything writable — whatever
intermediate directories are missing — each generator creates all missing
intermediate directories before saving and still succeeds. -/
theorem claim_C4 (sd : String) (fs : FsState) (m : Fin 12) (d y : Nat)
    (hw : ∀ p, fs.writable p = true) :
    ((CreateLoanTemplate.run sd fs m d y).err = none ∧
     (∀ q ∈ prefixesOf CreateLoanTemplate.output_dir,
        q ∈ (CreateLoanTemplate.run sd fs m d y).fs.dirs) ∧
     CreateLoanTemplate.output_path ∈ (CreateLoanTemplate.run sd fs m d y).fs.files) ∧
    ((CreateTestTemplate.run sd fs).err = none ∧
     (∀ q ∈ prefixesOf CreateTestTemplate.output_dir,
        q ∈ (CreateTestTemplate.run sd fs).fs.dirs) ∧
     CreateTestTemplate.output_path ∈ (CreateTestTemplate.run sd fs).fs.files) := by
  constructor
  · rw [CreateLoanTemplate.loan_run_def sd fs m d y]
    exact scriptRun_ok _ _ _ _ _ hw (by decide) (by decide)
  · rw [CreateTestTemplate.test_run_def sd fs]
    exact scriptRun_ok _ _ _ _ _ hw (by decide) (by decide)

/-- C4 witness: on an empty, fully writable filesystem both runs succeed,
every intermediate directory of the two output chains exists afterwards and
both output files are present. -/
theorem claim_C4_witness :
    (∀ p, fsFree.writable p = true) ∧
    (((CreateLoanTemplate.run "scripts" fsFree 0 1 2024).err = none ∧
      (∀ q ∈ prefixesOf CreateLoanTemplate.output_dir,
         q ∈ (CreateLoanTemplate.run "scripts" fsFree 0 1 2024).fs.dirs) ∧
      CreateLoanTemplate.output_path ∈
        (CreateLoanTemplate.run "scripts" fsFree 0 1 2024).fs.files) ∧
     ((CreateTestTemplate.run "scripts" fsFree).err = none ∧
      (∀ q ∈ prefixesOf CreateTestTemplate.output_dir,
         q ∈ (CreateTestTemplate.run "scripts" fsFree).fs.dirs) ∧
      CreateTestTemplate.output_path ∈ (CreateTestTemplate.run "scripts" fsFree).fs.files)) :=
  ⟨fun _ => rfl, claim_C4 "scripts" fsFree 0 1 2024 (fun _ => rfl)⟩

/-- C5: neither script catches or retries any error.  With the target
directory unwritable each run aborts with a propagated error, exits with a
non-zero status, prints nothing, produces no document, and leaves the
filesystem's files exactly as they were — in particular no partial output
file is visible; and on every filesystem whatsoever, any failing run exits
non-zero, prints nothing, produces no document and leaves the files
untouched. -/
theorem claim_C5 (sd : String) (fs : FsState) (m : Fin 12) (d y : Nat)
    (hL : fs.writable CreateLoanTemplate.output_dir = false)
    (hT : fs.writable CreateTestTemplate.output_dir = false) :
    ((CreateLoanTemplate.run sd fs m d y).err.isSome = true ∧
     exitCode (CreateLoanTemplate.run sd fs m d y) = 1 ∧
     (CreateLoanTemplate.run sd fs m d y).stdout = [] ∧
     (CreateLoanTemplate.run sd fs m d y).outDoc = none ∧
     (CreateLoanTemplate.run sd fs m d y).fs.files = fs.files) ∧
    ((CreateTestTemplate.run sd fs).err.isSome = true ∧
     exitCode (CreateTestTemplate.run sd fs) = 1 ∧
     (CreateTestTemplate.run sd fs).stdout = [] ∧
     (CreateTestTemplate.run sd fs).outDoc = none ∧
     (CreateTestTemplate.run sd fs).fs.files = fs.files) ∧
    (∀ fs2 : FsState, (CreateLoanTemplate.run sd fs2 m d y).err.isSome = true →
      exitCode (CreateLoanTemplate.run sd fs2 m d y) = 1 ∧
      (CreateLoanTemplate.run sd fs2 m d y).stdout = [] ∧
      (CreateLoanTemplate.run sd fs2 m d y).outDoc = none ∧
      (CreateLoanTemplate.run sd fs2 m d y).fs.files = fs2.files) ∧
    (∀ fs2 : FsState, (CreateTestTemplate.run sd fs2).err.isSome = true →
      exitCode (CreateTestTemplate.run sd fs2) = 1 ∧
      (CreateTestTemplate.run sd fs2).stdout = [] ∧
      (CreateTestTemplate.run sd fs2).outDoc = none ∧
      (CreateTestTemplate.run sd fs2).fs.files = fs2.files) := by
  refine ⟨?_, ?_, ?_, ?_⟩
  · rw [CreateLoanTemplate.loan_run_def sd fs m d y]
    exact run_blocked _ _ _ _ _ (by decide) hL
  · rw [CreateTestTemplate.test_run_def sd fs]
    exact run_blocked _ _ _ _ _ (by decide) hT
  · intro fs2 h
    rw [CreateLoanTemplate.loan_run_def sd fs2 m d y] at h ⊢
    obtain ⟨hs, ho, hf⟩ := scriptRun_err_some _ _ _ _ _ h
    exact ⟨by simp [exitCode, h], hs, ho, hf⟩
  · intro fs2 h
    rw [CreateTestTemplate.test_run_def sd fs2] at h ⊢
    obtain ⟨hs, ho, hf⟩ := scriptRun_err_some _ _ _ _ _ h
    exact ⟨by simp [exitCode, h], hs, ho, hf⟩

/-- C5 witness: on a filesystem where exactly the two target directories are
unwritable, both concrete runs abort non-zero with nothing printed, no
document and untouched files. -/
theorem claim_C5_witness :
    fsBlocked.writable CreateLoanTemplate.output_dir = false ∧
    fsBlocked.writable CreateTestTemplate.output_dir = false ∧
    (((CreateLoanTemplate.run "scripts" fsBlocked 0 1 2024).err.isSome = true ∧
      exitCode (CreateLoanTemplate.run "scripts" fsBlocked 0 1 2024) = 1 ∧
      (CreateLoanTemplate.run "scripts" fsBlocked 0 1 2024).stdout = [] ∧
      (CreateLoanTemplate.run "scripts" fsBlocked 0 1 2024).outDoc = none ∧
      (CreateLoanTemplate.run "scripts" fsBlocked 0 1 2024).fs.files = fsBlocked.files) ∧
     ((CreateTestTemplate.run "scripts" fsBlocked).err.isSome = true ∧
      exitCode (CreateTestTemplate.run "scripts" fsBlocked) = 1 ∧
      (CreateTestTemplate.run "scripts" fsBlocked).stdout = [] ∧
      (CreateTestTemplate.run "scripts" fsBlocked).outDoc = none ∧
      (CreateTestTemplate.run "scripts" fsBlocked).fs.files = fsBlocked.files)) :=
  ⟨by decide, by decide,
   (claim_C5 "scripts" fsBlocked 0 1 2024 (by decide) (by decide)).1,
   (claim_C5 "scripts" fsBlocked 0 1 2024 (by decide) (by decide)).2.1⟩

/-- C6: any two runs of the loan generator produce documents that agree on
every block except (at most) the date paragraph at index 4, which is the
right-aligned date stamp of the respective run; and any two successful runs
of the welcome generator produce the very same document. -/
theorem claim_C6 (d1 d2 sd1 sd2 : String) (fs1 fs2 : FsState) :
    ((CreateLoanTemplate.doc d1).eraseIdx 4 = (CreateLoanTemplate.doc d2).eraseIdx 4 ∧
     (CreateLoanTemplate.doc d1)[4]? = some (CreateLoanTemplate.date_para d1)) ∧
    ((CreateTestTemplate.run sd1 fs1).outDoc.isSome = true →
      (CreateTestTemplate.run sd2 fs2).outDoc.isSome = true →
      (CreateTestTemplate.run sd1 fs1).outDoc = (CreateTestTemplate.run sd2 fs2).outDoc) := by
  refine ⟨⟨rfl, rfl⟩, ?_⟩
  intro h1 h2
  rw [CreateTestTemplate.test_run_def sd1 fs1] at h1
  rw [CreateTestTemplate.test_run_def sd2 fs2] at h2
  rw [CreateTestTemplate.test_run_def sd1 fs1, CreateTestTemplate.test_run_def sd2 fs2]
  rcases scriptRun_outDoc CreateTestTemplate.output_dir CreateTestTemplate.output_path
      CreateTestTemplate.doc (CreateTestTemplate.printedLines sd1) fs1 with ha | ha
  · rw [ha] at h1
    exact absurd h1 (by simp)
  · rcases scriptRun_outDoc CreateTestTemplate.output_dir CreateTestTemplate.output_path
        CreateTestTemplate.doc (CreateTestTemplate.printedLines sd2) fs2 with hb | hb
    · rw [hb] at h2
      exact absurd h2 (by simp)
    · rw [ha, hb]

/-- C7 counterexample: the loan document's content is not fully determined
by the script's literal constants — two runs at different clock dates
produce different documents. -/
theorem claim_C7_counterexample :
    CreateLoanTemplate.doc (strftimeBdY 0 1 2024) ≠
      CreateLoanTemplate.doc (strftimeBdY 1 2 2025) := by
  decide

/-- C7 (amended): the generators take no command-line arguments and read no
environment configuration; the produced document is fully determined by the
scripts' literal constants and — for the loan generator only — the current
date: whenever a run produces a document at all, it is exactly the fixed
document of its date (the welcome document is one constant). -/
theorem claim_C7 (sd : String) (fs : FsState) (m : Fin 12) (d y : Nat) :
    ((CreateLoanTemplate.run sd fs m d y).outDoc = none ∨
     (CreateLoanTemplate.run sd fs m d y).outDoc =
       some (CreateLoanTemplate.doc (strftimeBdY m d y))) ∧
    ((CreateTestTemplate.run sd fs).outDoc = none ∨
     (CreateTestTemplate.run sd fs).outDoc = some CreateTestTemplate.doc) :=
  ⟨scriptRun_outDoc _ _ _ _ _, scriptRun_outDoc _ _ _ _ _⟩

/-- C8 counterexample: the date-stamp paragraph's text is not the bare
formatted current date — it carries the literal prefix `Date: `. -/
theorem claim_C8_counterexample :
    ((CreateLoanTemplate.doc (strftimeBdY 9 12 2025))[4]?.map blockText) =
      some ("Date: October 12, 2025") ∧
    "Date: October 12, 2025" ≠ strftimeBdY 9 12 2025 := by
  decide

/-- C8 (amended): the date-stamp paragraph (block 4) is right-aligned and
its text is `Date: ` followed by the current date formatted as full month
name, zero-padded day and year; and the requested-amount cell of the Loan
Request Details table is rendered as one run that is bold, green
(RGB 0,102,0) and 12pt. -/
theorem claim_C8 (m : Fin 12) (d y : Nat) :
    (CreateLoanTemplate.doc (strftimeBdY m d y))[4]? =
      some (.para { runs := [mkRun ("Date: " ++ strftimeBdY m d y)], align := .right }) ∧
    strftimeBdY m d y = monthName m ++ " " ++ pad2 d ++ ", " ++ natRepr y ∧
    ((CreateLoanTemplate.loan_table.rows.getD 0 []).getD 1 {}).runs =
      [⟨"$\x7b\x7bloanAmount\x7d\x7d", some true, some 12, some ⟨0, 102, 0⟩⟩] :=
  ⟨rfl, rfl, by decide⟩

/-- C9: on a successful run each script prints (only after the save) its
confirmation lines, whose first line carries the resolved output path and
whose remaining lines name exactly the token set embedded in the document
just written; a failed run prints nothing. -/
theorem claim_C9 (sd : String) (fs : FsState) (m : Fin 12) (d y : Nat) :
    ((CreateLoanTemplate.run sd fs m d y).err = none →
      (CreateLoanTemplate.run sd fs m d y).stdout = CreateLoanTemplate.printedLines sd ∧
      ((CreateLoanTemplate.run sd fs m d y).stdout)[0]? =
        some ("[OK] Template created: " ++ osPathJoin sd CreateLoanTemplate.output_path) ∧
      (∀ t, t ∈ textsTokens ((CreateLoanTemplate.run sd fs m d y).stdout).tail ↔
        t ∈ docTokens (CreateLoanTemplate.doc (strftimeBdY m d y)))) ∧
    ((CreateLoanTemplate.run sd fs m d y).err.isSome = true →
      (CreateLoanTemplate.run sd fs m d y).stdout = []) ∧
    ((CreateTestTemplate.run sd fs).err = none →
      (CreateTestTemplate.run sd fs).stdout = CreateTestTemplate.printedLines sd ∧
      ((CreateTestTemplate.run sd fs).stdout)[0]? =
        some ("Template created: " ++ osPathJoin sd CreateTestTemplate.output_path) ∧
      (∀ t, t ∈ textsTokens ((CreateTestTemplate.run sd fs).stdout).tail ↔
        t ∈ docTokens CreateTestTemplate.doc)) ∧
    ((CreateTestTemplate.run sd fs).err.isSome = true →
      (CreateTestTemplate.run sd fs).stdout = []) := by
  rw [CreateLoanTemplate.loan_run_def sd fs m d y, CreateTestTemplate.test_run_def sd fs]
  refine ⟨?_, ?_, ?_, ?_⟩
  · intro h
    obtain ⟨hs, _⟩ := scriptRun_err_none _ _ _ _ _ h
    refine ⟨hs, ?_, ?_⟩
    · rw [hs]
      rfl
    · intro t
      rw [hs]
      rw [show textsTokens (CreateLoanTemplate.printedLines sd).tail =
            CreateLoanTemplate.specTokens from rfl]
      exact (CreateLoanTemplate.loan_tokens_mem_iff m d y t).symm
  · intro h
    exact (scriptRun_err_some _ _ _ _ _ h).1
  · intro h
    obtain ⟨hs, _⟩ := scriptRun_err_none _ _ _ _ _ h
    refine ⟨hs, ?_, ?_⟩
    · rw [hs]
      rfl
    · intro t
      rw [hs]
      rw [show textsTokens (CreateTestTemplate.printedLines sd).tail =
            CreateTestTemplate.specTokens from rfl]
      exact (CreateTestTemplate.test_tokens_mem_iff t).symm
  · intro h
    exact (scriptRun_err_some _ _ _ _ _ h).1

/-- C10: in the loan document some tokens sit inside larger literal strings
rather than alone: the SSN cell is `XXX-XX-` + ssn token, the annual-income,
requested-amount, monthly-income and monthly-debt cells prefix their token
with a literal dollar sign, and the debt-to-income cell is ratio token +
`% (` + status token + `)`; substituting only the tokens leaves the
surrounding literal characters verbatim. -/
theorem claim_C10 :
    cellText CreateLoanTemplate.applicant_table 4 1 = "XXX-XX-\x7b\x7bssn\x7d\x7d" ∧
    cellText CreateLoanTemplate.employment_table 3 1 = "$\x7b\x7bannualIncome\x7d\x7d" ∧
    cellText CreateLoanTemplate.loan_table 0 1 = "$\x7b\x7bloanAmount\x7d\x7d" ∧
    cellText CreateLoanTemplate.analysis_table 0 1 =
      "$\x7b\x7bdebtToIncomeRatio.monthlyIncome\x7d\x7d" ∧
    cellText CreateLoanTemplate.analysis_table 1 1 = "$\x7b\x7bmonthlyDebt\x7d\x7d" ∧
    cellText CreateLoanTemplate.analysis_table 2 1 =
      "\x7b\x7bdebtToIncomeRatio.ratio\x7d\x7d% (\x7b\x7bdebtToIncomeRatio.status\x7d\x7d)" ∧
    (∀ env : String → String,
      substTokens env (cellText CreateLoanTemplate.applicant_table 4 1) =
        "XXX-XX-" ++ env "ssn") ∧
    (∀ env : String → String,
      substTokens env (cellText CreateLoanTemplate.analysis_table 2 1) =
        env "debtToIncomeRatio.ratio" ++ "% (" ++ env "debtToIncomeRatio.status" ++ ")") := by
  refine ⟨by decide, by decide, by decide, by decide, by decide, by decide, ?_, ?_⟩
  · intro env
    exact subst_ssn env
  · intro env
    exact subst_dti env

end EzBuildr
